import Mathlib

/-!
Verification of `brainstorm/layers/python_layers.py`.

The file shallowly embeds the layer abstraction of the repository: the
construction protocol of `LayerBase` and its variants (`InputLayer`,
`NoOpLayer`, `FeedForwardLayer`), the handler-binding step with its activation
table, the parameter-structure declaration, the numeric forward and backward
passes of `FeedForwardLayer`, and the class registry
`get_layer_class_from_typename`.

Python exceptions are embedded as an explicit error type and every fallible
operation returns `Except PyError _`.  Buffers are total functions over `Fin`
index types with integer entries; the external numeric handler operations
(`dot`, `dot_add`, `add_mv`, `reshape`, `sum`) are given the semantics the
specification assigns to the handler contract.
-/

set_option autoImplicit false

/-- Embedded Python exceptions raised by the layer module.  Assertion errors
carry the data their message interpolates, so that a statement can express
that an error message names a given kwarg key or type name. -/
inductive PyError where
  /-- `LayerBase.validate_kwargs` assertion: message interpolates the list of
  all kwarg keys (`"Unexpected kwargs: ..."`). -/
  | unexpectedKwargs (keys : List String)
  /-- `FeedForwardLayer.validate_kwargs` assertion: message interpolates the
  offending key (`"Unexpected kwarg: ... for FeedForwardLayer"`). -/
  | unexpectedKwarg (key : String)
  /-- `InputLayer.__init__` assertion `"InputLayer cannot have an in_size"`. -/
  | inputLayerHasInSize
  /-- `NoOpLayer.__init__` assertion
  `"For NoOpLayer in and out size must be equal"`. -/
  | noOpSizeMismatch
  /-- Python `KeyError` from a dict lookup; carries the missing key. -/
  | keyError (key : String)
  /-- Python `TypeError` from calling a non-callable object or calling a
  callable with the wrong number of arguments. -/
  | typeError (msg : String)
  /-- Python `AttributeError` from an attribute access on `None`. -/
  | attributeError (msg : String)
  /-- The registry `TypeError` (`"Layer-type ... unknown!"`); carries the
  type name the message interpolates. -/
  | layerTypeUnknown (typename : String)
deriving DecidableEq

/-- Python `kwargs` dict restricted to the shape this module uses: an
association of string keys to string values (only the key `act_func`, a
string, is ever read). -/
abbrev Kwargs := List (String × String)

/-- Python truthiness of an optional integer (`None` and `0` are falsy).
`InputLayer.__init__` tests `not in_size` with this semantics. -/
def truthyOptNat : Option Nat → Bool
  | none => false
  | some n => n != 0

/-- A bound numeric backend.  The layer module only ever reads the six
activation attributes resolved by `FeedForwardLayer.set_handler`; each
activation function is an elementwise map and each derivative is an
elementwise map of the forward output and the incoming delta (the first
argument of the Python derivative call is always `None` and is dropped). -/
structure Handler where
  sigmoid : Int → Int
  sigmoid_deriv : Int → Int → Int
  tanh : Int → Int
  tanh_deriv : Int → Int → Int
  rel : Int → Int
  rel_deriv : Int → Int → Int

/-- The object stored in `FeedForwardLayer.act_func` after `set_handler`:
either a bound handler method, which accepts the two-argument call
`act_func(flat_output, flat_output)` of `forward_pass` and applies its
elementwise map in place, or the literal `lambda x: x` of the `linear` table
entry, which accepts exactly one argument. -/
inductive ActF where
  | handlerFn (g : Int → Int)
  | identityLambda

/-- The object stored in `FeedForwardLayer.act_func_deriv` after
`set_handler`: either a bound handler method, which accepts the
four-argument call `deriv(None, output, out_delta, dZ)` of `backward_pass`,
or the literal integer `1` of the `linear` table entry, which is not
callable at all. -/
inductive ActDeriv where
  | handlerFn (d : Int → Int → Int)
  | constOne

/-- State of a `LayerBase` (also used for `InputLayer` and `NoOpLayer`, which
add no fields).  `σ` is the type of the opaque adjacent-layer references the
constructor stores verbatim. -/
structure LayerState (σ : Type) where
  in_size : Option Nat
  kwargs : Kwargs
  out_size : Option Nat
  sink_layers : List σ
  source_layers : List σ
  handler : Option Handler

/-- State of a `FeedForwardLayer`: the `LayerBase` fields plus the
activation pair, both `None` until `set_handler` runs. -/
structure FFLayer (σ : Type) where
  in_size : Option Nat
  kwargs : Kwargs
  out_size : Option Nat
  sink_layers : List σ
  source_layers : List σ
  handler : Option Handler
  act_func : Option ActF
  act_func_deriv : Option ActDeriv

/-- `LayerBase.validate_kwargs`: `assert not kwargs`, whose message
interpolates `list(kwargs.keys())`. -/
def LayerBase.validate_kwargs : Kwargs → Except PyError Unit
  | [] => .ok ()
  | k :: rest => .error (.unexpectedKwargs ((k :: rest).map Prod.fst))

/-- `LayerBase._get_output_size`: `size if size is not None else in_size`. -/
def LayerBase._get_output_size (size in_size : Option Nat) (_ : Kwargs) :
    Option Nat :=
  match size with
  | some s => some s
  | none => in_size

/-- `LayerBase.__init__`: validates the kwargs, derives `out_size`, stores the
adjacency references verbatim and leaves the handler unbound. -/
def LayerBase.construct {σ : Type} (size in_size : Option Nat)
    (sink_layers source_layers : List σ) (kwargs : Kwargs) :
    Except PyError (LayerState σ) :=
  match LayerBase.validate_kwargs kwargs with
  | .error e => .error e
  | .ok _ =>
      .ok { in_size := in_size
            kwargs := kwargs
            out_size := LayerBase._get_output_size size in_size kwargs
            sink_layers := sink_layers
            source_layers := source_layers
            handler := none }

/-- `InputLayer.__init__`: runs the base constructor, then
`assert not in_size` (Python truthiness, so `None` and `0` both pass). -/
def InputLayer.construct {σ : Type} (size in_size : Option Nat)
    (sink_layers source_layers : List σ) (kwargs : Kwargs) :
    Except PyError (LayerState σ) :=
  match LayerBase.construct size in_size sink_layers source_layers kwargs with
  | .error e => .error e
  | .ok L =>
      match truthyOptNat in_size with
      | true => .error .inputLayerHasInSize
      | false => .ok L

/-- `NoOpLayer.__init__`: runs the base constructor, then
`assert size == in_size` on the raw constructor arguments. -/
def NoOpLayer.construct {σ : Type} (size in_size : Option Nat)
    (sink_layers source_layers : List σ) (kwargs : Kwargs) :
    Except PyError (LayerState σ) :=
  match LayerBase.construct size in_size sink_layers source_layers kwargs with
  | .error e => .error e
  | .ok L => if size = in_size then .ok L else .error .noOpSizeMismatch

/-- The loop body of `FeedForwardLayer.validate_kwargs`: asserts
`key in [act_func]` for each key in order and fails at the first
unrecognized key, whose message interpolates that key. -/
def FeedForwardLayer.validateKeys : List String → Except PyError Unit
  | [] => .ok ()
  | key :: rest =>
      if key ∈ [("act_func" : String)] then FeedForwardLayer.validateKeys rest
      else .error (.unexpectedKwarg key)

/-- `FeedForwardLayer.validate_kwargs`. -/
def FeedForwardLayer.validate_kwargs (kwargs : Kwargs) : Except PyError Unit :=
  FeedForwardLayer.validateKeys (kwargs.map Prod.fst)

/-- `FeedForwardLayer.__init__`: `LayerBase.__init__` dispatches to the
overridden `validate_kwargs`; the activation pair starts out unset. -/
def FeedForwardLayer.construct {σ : Type} (size in_size : Option Nat)
    (sink_layers source_layers : List σ) (kwargs : Kwargs) :
    Except PyError (FFLayer σ) :=
  match FeedForwardLayer.validate_kwargs kwargs with
  | .error e => .error e
  | .ok _ =>
      .ok { in_size := in_size
            kwargs := kwargs
            out_size := LayerBase._get_output_size size in_size kwargs
            sink_layers := sink_layers
            source_layers := source_layers
            handler := none
            act_func := none
            act_func_deriv := none }

/-- `kwargs.get(key, default)`. -/
def kwargsGet (kwargs : Kwargs) (key default_ : String) : String :=
  match List.lookup key kwargs with
  | some v => v
  | none => default_

/-- The `activation_functions` dict literal of
`FeedForwardLayer.set_handler`, as a lookup returning `none` exactly on the
keys the dict does not contain. -/
def activation_functions (h : Handler) (name : String) :
    Option (ActF × ActDeriv) :=
  if name = ("sigmoid" : String) then
    some (.handlerFn h.sigmoid, .handlerFn h.sigmoid_deriv)
  else if name = ("tanh" : String) then
    some (.handlerFn h.tanh, .handlerFn h.tanh_deriv)
  else if name = ("linear" : String) then
    some (.identityLambda, .constOne)
  else if name = ("rel" : String) then
    some (.handlerFn h.rel, .handlerFn h.rel_deriv)
  else none

/-- `FeedForwardLayer.set_handler`: stores the handler and resolves the
activation pair from the table keyed by `kwargs.get(act_func, tanh)`;
a name outside the table raises `KeyError`. -/
def FeedForwardLayer.set_handler {σ : Type} (L : FFLayer σ) (h : Handler) :
    Except PyError (FFLayer σ) :=
  match activation_functions h (kwargsGet L.kwargs ("act_func") ("tanh")) with
  | some p =>
      .ok { L with handler := some h
                   act_func := some p.1
                   act_func_deriv := some p.2 }
  | none => .error (.keyError (kwargsGet L.kwargs ("act_func") ("tanh")))

/-- A declared parameter shape: the Python code returns either the pair
`(in_size, out_size)` or the bare `out_size`. -/
inductive PShape where
  | matrix (rows cols : Option Nat)
  | vector (n : Option Nat)
deriving DecidableEq

/-- `LayerBase.get_parameter_structure`: the default is empty. -/
def LayerBase.get_parameter_structure {σ : Type} (_ : LayerState σ) :
    List (String × PShape) :=
  []

/-- `FeedForwardLayer.get_parameter_structure`. -/
def FeedForwardLayer.get_parameter_structure {σ : Type} (L : FFLayer σ) :
    List (String × PShape) :=
  [(("W"), .matrix L.in_size L.out_size), (("b"), .vector L.out_size)]

/-- `LayerBase.forward_pass` is `pass`: it raises nothing, reads no handler
and writes nothing, so the layer state and the writable output buffer come
back unchanged.  `InputLayer` and `NoOpLayer` inherit it. -/
def LayerBase.forward_pass {σ π ι ω : Type} (L : LayerState σ)
    (_parameters : π) (_input_buffer : ι) (output_buffer : ω) :
    Except PyError (LayerState σ × ω) :=
  .ok (L, output_buffer)

/-- `LayerBase.backward_pass` is `pass`; `InputLayer` and `NoOpLayer`
inherit it. -/
def LayerBase.backward_pass {σ π ι ω δ δ2 γ : Type} (L : LayerState σ)
    (_parameters : π) (_input_buffer : ι) (_output_buffer : ω)
    (in_delta_buffer : δ) (_out_delta_buffer : δ2) (gradient_buffer : γ) :
    Except PyError (LayerState σ × δ × γ) :=
  .ok (L, in_delta_buffer, gradient_buffer)

/-- An integer matrix indexed by `Fin` bounds, the embedding of a 2-d numpy
buffer. -/
abbrev MatZ (m n : Nat) := Fin m → Fin n → Int

/-- An integer vector, the embedding of a 1-d numpy buffer. -/
abbrev VecZ (n : Nat) := Fin n → Int

/-- A 3-d buffer of shape `(t, b, f)` (time, batch, features). -/
abbrev Buf3 (t b f : Nat) := Fin t → Fin b → Fin f → Int

/-- Modelled from the spec: handler operation `dot(A, B, out)`, the overwrite
matrix multiply of the external numeric backend (spec section 6); the handler
implementation is repository code outside `src/`. -/
def hdot {m k n : Nat} (A : MatZ m k) (B : MatZ k n) : MatZ m n :=
  fun i j => ∑ l, A i l * B l j

/-- Modelled from the spec: handler operation `dot_add(A, B, out)`, the
accumulating matrix multiply `out += A @ B` (spec section 6). -/
def hdot_add {m k n : Nat} (A : MatZ m k) (B : MatZ k n) (out : MatZ m n) :
    MatZ m n :=
  fun i j => out i j + ∑ l, A i l * B l j

/-- Modelled from the spec: handler operation `add_mv(matrix, vector, out)`,
which broadcast-adds the vector to every row (spec section 6). -/
def hadd_mv {m n : Nat} (M : MatZ m n) (v : VecZ n) : MatZ m n :=
  fun i j => M i j + v j

/-- Numpy transpose `A.T`. -/
def htranspose {m n : Nat} (A : MatZ m n) : MatZ n m :=
  fun i j => A j i

/-- Modelled from the spec: handler operation `sum(buffer, axis=0, out)`, the
column sum over the flattened batch axis (spec section 6). -/
def hsum_axis0 {m n : Nat} (A : MatZ m n) : VecZ n :=
  fun j => ∑ i, A i j

/-- Modelled from the spec: handler operation
`reshape(buffer, (t * b, f))`, the zero-copy row-major view that folds the
leading two axes of a 3-d buffer (spec section 6).  Row-major means element
`(i, j, k)` of the 3-d buffer is row `i * b + j` of the view, which is the
image of `(i, j)` under `finProdFinEquiv`. -/
def reshape3to2 {t b f : Nat} (X : Buf3 t b f) : MatZ (t * b) f :=
  fun p k => X (finProdFinEquiv.symm p).1 (finProdFinEquiv.symm p).2 k

/-- The inverse view: reading a fully rewritten `(t * b, f)` view back
through the original 3-d buffer. -/
def reshape2to3 {t b f : Nat} (X : MatZ (t * b) f) : Buf3 t b f :=
  fun i j k => X (finProdFinEquiv (i, j)) k

/-- The `parameters` dict of a `FeedForwardLayer` (and, with the same keys,
its `gradient_buffer`): a buffer `W` of shape `(in_size, out_size)` and a
buffer `b` of shape `(out_size,)`. -/
structure FFParams (fin fout : Nat) where
  W : MatZ fin fout
  b : VecZ fout

/-- `FeedForwardLayer.forward_pass`.  Buffers are typed at the matching
shapes `(t, b, fin)` and `(t, b, fout)`, so the two `H.reshape` calls are the
view conversions `reshape3to2`/`reshape2to3`.  `H.dot` overwrites the whole
flattened output view, `H.add_mv` adds the bias row-wise, and the final
in-place call `self.act_func(flat_output, flat_output)` applies the
elementwise map when `act_func` is a bound handler method — but raises
`TypeError` when `act_func` is the one-argument `lambda x: x` of the
`linear` table entry, and also when no handler was ever bound. -/
def FeedForwardLayer.forward_pass {σ : Type} {t b fin fout : Nat}
    (L : FFLayer σ) (parameters : FFParams fin fout)
    (input_buffer : Buf3 t b fin) (_output_buffer : Buf3 t b fout) :
    Except PyError (Buf3 t b fout) :=
  match L.handler with
  | none => .error (.attributeError ("NoneType object has no attribute reshape"))
  | some _ =>
      let WX := parameters.W
      let W_bias := parameters.b
      let flat_input := reshape3to2 input_buffer
      let flat_output := hdot flat_input WX
      let flat_output := hadd_mv flat_output W_bias
      match L.act_func with
      | some (.handlerFn g) =>
          .ok (reshape2to3 (fun p k => g (flat_output p k)))
      | some .identityLambda =>
          .error (.typeError
            ("lambda takes 1 positional argument but 2 were given"))
      | none => .error (.typeError ("NoneType object is not callable"))

/-- `FeedForwardLayer.backward_pass`.  A zero temporary `dZ` of the output
shape is allocated, the derivative call
`self.act_func_deriv(None, output_buffer, out_delta_buffer, dZ)` overwrites
it elementwise when `act_func_deriv` is a bound handler method — and raises
`TypeError` before anything is written when it is the integer `1` of the
`linear` table entry or still `None`.  Then `H.dot_add` accumulates
`dZ @ W.T` into the in-delta view, `H.dot` overwrites the weight gradient
with `flat_input.T @ dZ` and `H.sum` overwrites the bias gradient with the
column sum of `dZ`.  The returned pair is the final contents of
`in_delta_buffer` and `gradient_buffer`. -/
def FeedForwardLayer.backward_pass {σ : Type} {t b fin fout : Nat}
    (L : FFLayer σ) (parameters : FFParams fin fout)
    (input_buffer : Buf3 t b fin) (output_buffer : Buf3 t b fout)
    (in_delta_buffer : Buf3 t b fin) (out_delta_buffer : Buf3 t b fout)
    (_gradient_buffer : FFParams fin fout) :
    Except PyError (Buf3 t b fin × FFParams fin fout) :=
  match L.handler with
  | none => .error (.attributeError ("NoneType object has no attribute zeros"))
  | some _ =>
      let WX := parameters.W
      match L.act_func_deriv with
      | some (.handlerFn d) =>
          let dZ : Buf3 t b fout :=
            fun i j k => d (output_buffer i j k) (out_delta_buffer i j k)
          let flat_input := reshape3to2 input_buffer
          let flat_dZ := reshape3to2 dZ
          let flat_in_delta_buffer :=
            hdot_add flat_dZ (htranspose WX) (reshape3to2 in_delta_buffer)
          let dWX := hdot (htranspose flat_input) flat_dZ
          let dW_bias := hsum_axis0 flat_dZ
          .ok (reshape2to3 flat_in_delta_buffer, ⟨dWX, dW_bias⟩)
      | some .constOne =>
          .error (.typeError ("int object is not callable"))
      | none => .error (.typeError ("NoneType object is not callable"))

/-- The classes of the module, as scanned by the registry.  `className` is
the Python `__name__`. -/
inductive LayerClass where
  | layerBase
  | inputLayer
  | noOpLayer
  | feedForwardLayer
deriving DecidableEq

/-- The Python `__name__` of each class. -/
def LayerClass.className : LayerClass → String
  | .layerBase => "LayerBase"
  | .inputLayer => "InputLayer"
  | .noOpLayer => "NoOpLayer"
  | .feedForwardLayer => "FeedForwardLayer"

/-- Modelled from the spec: `get_inheritors` (defined in `brainstorm.utils`,
which is not under `src/`) returns every direct and transitive subclass of
the given class; for `LayerBase` those are `InputLayer`, `NoOpLayer` and
`FeedForwardLayer`, and the base class itself is not among them. -/
def get_inheritors_LayerBase : List LayerClass :=
  [.inputLayer, .noOpLayer, .feedForwardLayer]

/-- The `for ... else` scan of `get_layer_class_from_typename`: return the
first class whose `__name__` equals the query, else raise. -/
def findLayerClass (typename : String) :
    List LayerClass → Except PyError LayerClass
  | [] => .error (.layerTypeUnknown typename)
  | c :: rest =>
      if typename = c.className then .ok c else findLayerClass typename rest

/-- `get_layer_class_from_typename`. -/
def get_layer_class_from_typename (typename : String) :
    Except PyError LayerClass :=
  findLayerClass typename get_inheritors_LayerBase

/-! ### Helper lemmas -/

/-- Reading the flattened view at the image of `(i, j)` recovers the 3-d
entry. -/
theorem reshape3to2_apply {t b f : Nat} (X : Buf3 t b f) (i : Fin t)
    (j : Fin b) (k : Fin f) :
    reshape3to2 X (finProdFinEquiv (i, j)) k = X i j k := by
  simp [reshape3to2]

/-- A sum over the flattened batch axis is the double sum over time and
batch. -/
theorem sum_flat {t b : Nat} (F : Fin (t * b) → Int) :
    ∑ p, F p = ∑ i : Fin t, ∑ j : Fin b, F (finProdFinEquiv (i, j)) := by
  rw [← Equiv.sum_comp (finProdFinEquiv : Fin t × Fin b ≃ Fin (t * b)) F]
  exact Fintype.sum_prod_type _

/-- `LayerBase.construct` succeeds exactly on empty kwargs, and then yields
the record `__init__` builds. -/
theorem layerBase_construct_eq {σ : Type} (size in_size : Option Nat)
    (sink source : List σ) (kwargs : Kwargs) (L : LayerState σ)
    (h : LayerBase.construct size in_size sink source kwargs = .ok L) :
    kwargs = [] ∧
      L = { in_size := in_size, kwargs := kwargs,
            out_size := LayerBase._get_output_size size in_size kwargs,
            sink_layers := sink, source_layers := source, handler := none } := by
  cases kwargs with
  | nil =>
      refine ⟨rfl, ?_⟩
      simpa [LayerBase.construct, LayerBase.validate_kwargs] using h.symm
  | cons p rest =>
      simp [LayerBase.construct, LayerBase.validate_kwargs] at h

/-- With `in_size = None` the output-size rule returns the `size`
argument. -/
theorem get_output_size_none (size : Option Nat) (kwargs : Kwargs) :
    LayerBase._get_output_size size none kwargs = size := by
  cases size <;> rfl

/-! ### C2: NoOpLayer construction -/

/-- C2 counterexample: with `size=None`, `in_size=4` and empty kwargs the
output-size rule gives `out_size = in_size`, so the claim predicts success,
but `NoOpLayer.__init__` asserts `size == in_size` on the raw arguments and
fails. -/
theorem noOpLayer_out_size_cex :
    NoOpLayer.construct (σ := Unit) none (some 4) [] [] [] =
      .error .noOpSizeMismatch
    ∧ LayerBase._get_output_size none (some 4) [] = some 4 := by
  exact ⟨rfl, rfl⟩

/-- C2 (amended): `NoOpLayer` construction succeeds iff the kwargs are empty
and the raw `size` argument equals `in_size`; on success `out_size` equals
both. -/
theorem noOpLayer_construct_iff {σ : Type} (size in_size : Option Nat)
    (sink source : List σ) (kwargs : Kwargs) :
    ((∃ L, NoOpLayer.construct size in_size sink source kwargs = .ok L) ↔
      kwargs = [] ∧ size = in_size)
    ∧ ∀ L, NoOpLayer.construct size in_size sink source kwargs = .ok L →
        L.out_size = size ∧ L.out_size = in_size := by
  constructor
  · constructor
    · rintro ⟨L, hL⟩
      cases kwargs with
      | nil =>
          rw [NoOpLayer.construct] at hL
          by_cases hs : size = in_size
          · exact ⟨rfl, hs⟩
          · simp [LayerBase.construct, LayerBase.validate_kwargs, hs] at hL
      | cons p rest =>
          simp [NoOpLayer.construct, LayerBase.construct,
            LayerBase.validate_kwargs] at hL
    · rintro ⟨rfl, rfl⟩
      refine ⟨{ in_size := size, kwargs := [],
                out_size := LayerBase._get_output_size size size [],
                sink_layers := sink, source_layers := source,
                handler := none }, ?_⟩
      simp [NoOpLayer.construct, LayerBase.construct,
        LayerBase.validate_kwargs]
  · intro L hL
    rw [NoOpLayer.construct] at hL
    cases hbase : LayerBase.construct size in_size sink source kwargs with
    | error e => rw [hbase] at hL; cases hL
    | ok L0 =>
        rw [hbase] at hL
        dsimp only at hL
        by_cases hs : size = in_size
        · rw [if_pos hs] at hL
          injection hL with h
          subst h
          obtain ⟨hk, hrec⟩ :=
            layerBase_construct_eq size in_size sink source kwargs L0 hbase
          subst hrec
          subst hs
          cases size with
          | none => exact ⟨rfl, rfl⟩
          | some s => exact ⟨rfl, rfl⟩
        · rw [if_neg hs] at hL; cases hL

/-- C2 witness: `NoOpLayer(size=4, in_size=4, kwargs={})` succeeds with
`out_size == 4`, by the amended characterization. -/
theorem noOpLayer_construct_iff_witness :
    ∃ L, NoOpLayer.construct (σ := Unit) (some 4) (some 4) [] [] [] = .ok L
      ∧ L.out_size = some 4 := by
  obtain ⟨L, hL⟩ :=
    (noOpLayer_construct_iff (σ := Unit) (some 4) (some 4) [] [] []).1.mpr
      ⟨rfl, rfl⟩
  exact ⟨L, hL,
    ((noOpLayer_construct_iff (σ := Unit) (some 4) (some 4) [] [] []).2 L hL).1⟩

/-! ### C7: InputLayer construction -/

/-- C7: `InputLayer` construction fails for every truthy (non-empty)
`in_size`, and with `in_size=None` and empty kwargs it succeeds with
`out_size` equal to the given `size`. -/
theorem inputLayer_construct_spec {σ : Type} (size : Option Nat)
    (sink source : List σ) :
    (∀ (in_size : Option Nat) (kwargs : Kwargs),
        truthyOptNat in_size = true →
        ∃ e, InputLayer.construct size in_size sink source kwargs = .error e)
    ∧ ∃ L, InputLayer.construct (σ := σ) size none sink source [] = .ok L
        ∧ L.out_size = size := by
  constructor
  · intro in_size kwargs ht
    cases hbase : LayerBase.construct size in_size sink source kwargs with
    | error e => exact ⟨e, by simp [InputLayer.construct, hbase]⟩
    | ok L =>
        exact ⟨.inputLayerHasInSize, by simp [InputLayer.construct, hbase, ht]⟩
  · refine ⟨_, rfl, ?_⟩
    exact get_output_size_none size []

/-- C7 witness: `InputLayer(size=5, in_size=3)` fails and
`InputLayer(size=5, in_size=None)` succeeds with `out_size == 5`. -/
theorem inputLayer_construct_spec_witness :
    truthyOptNat (some 3) = true
    ∧ (∃ e, InputLayer.construct (σ := Unit) (some 5) (some 3) [] [] [] =
        .error e)
    ∧ ∃ L, InputLayer.construct (σ := Unit) (some 5) none [] [] [] = .ok L
        ∧ L.out_size = some 5 := by
  refine ⟨rfl, ?_, ?_⟩
  · exact (inputLayer_construct_spec (σ := Unit) (some 5) [] []).1
      (some 3) [] rfl
  · exact (inputLayer_construct_spec (σ := Unit) (some 5) [] []).2

/-! ### C5: FeedForwardLayer parameter structure -/

/-- A successful `FeedForwardLayer` construction yields exactly the record
`__init__` builds. -/
theorem ffLayer_construct_eq {σ : Type} (size in_size : Option Nat)
    (sink source : List σ) (kwargs : Kwargs) (L : FFLayer σ)
    (h : FeedForwardLayer.construct size in_size sink source kwargs = .ok L) :
    L = { in_size := in_size, kwargs := kwargs,
          out_size := LayerBase._get_output_size size in_size kwargs,
          sink_layers := sink, source_layers := source, handler := none,
          act_func := none, act_func_deriv := none } := by
  rw [FeedForwardLayer.construct] at h
  cases hv : FeedForwardLayer.validate_kwargs kwargs with
  | error e => rw [hv] at h; cases h
  | ok u =>
      rw [hv] at h
      dsimp only at h
      injection h with h
      exact h.symm

/-- C5: `get_parameter_structure` of a constructed `FeedForwardLayer` is
`[(W, (in_size, out_size)), (b, out_size)]`; in particular with
`size=4`, `in_size=3` it is `[(W, (3, 4)), (b, 4)]`. -/
theorem ff_parameter_structure {σ : Type} (size in_size : Option Nat)
    (sink source : List σ) (kwargs : Kwargs) (L : FFLayer σ)
    (h : FeedForwardLayer.construct size in_size sink source kwargs = .ok L) :
    FeedForwardLayer.get_parameter_structure L =
      [(("W"), PShape.matrix in_size
          (LayerBase._get_output_size size in_size kwargs)),
       (("b"), PShape.vector (LayerBase._get_output_size size in_size kwargs))]
    ∧ (size = some 4 → in_size = some 3 →
        FeedForwardLayer.get_parameter_structure L =
          [(("W"), PShape.matrix (some 3) (some 4)),
           (("b"), PShape.vector (some 4))]) := by
  have hrec := ffLayer_construct_eq size in_size sink source kwargs L h
  subst hrec
  refine ⟨rfl, ?_⟩
  rintro rfl rfl
  rfl

/-- C5 witness: the concrete layer `FeedForwardLayer(size=4, in_size=3)`. -/
theorem ff_parameter_structure_witness :
    ∃ L, FeedForwardLayer.construct (σ := Unit) (some 4) (some 3) [] [] [] =
        .ok L
      ∧ FeedForwardLayer.get_parameter_structure L =
          [(("W"), PShape.matrix (some 3) (some 4)),
           (("b"), PShape.vector (some 4))] := by
  refine ⟨_, rfl, ?_⟩
  exact (ff_parameter_structure (σ := Unit) (some 4) (some 3) [] [] [] _
    rfl).2 rfl rfl

/-! ### C6: unknown kwargs are fatal and named -/

/-- The `FeedForwardLayer.validate_kwargs` loop fails at some offending key
whenever one exists, and the raised assertion names that key. -/
theorem ffValidateKeys_err (keys : List String)
    (h : ∃ k ∈ keys, k ∉ [("act_func" : String)]) :
    ∃ k2, k2 ∈ keys ∧ k2 ∉ [("act_func" : String)] ∧
      FeedForwardLayer.validateKeys keys = .error (.unexpectedKwarg k2) := by
  induction keys with
  | nil => obtain ⟨k, hk, _⟩ := h; cases hk
  | cons a rest ih =>
      obtain ⟨k, hk, hnot⟩ := h
      by_cases ha : a ∈ [("act_func" : String)]
      · have hkrest : k ∈ rest := by
          rcases List.mem_cons.mp hk with rfl | hr
          · exact absurd ha hnot
          · exact hr
        obtain ⟨k2, h1, h2, h3⟩ := ih ⟨k, hkrest, hnot⟩
        refine ⟨k2, List.mem_cons_of_mem a h1, h2, ?_⟩
        simp only [FeedForwardLayer.validateKeys, if_pos ha]
        exact h3
      · refine ⟨a, List.mem_cons_self a rest, ha, ?_⟩
        simp only [FeedForwardLayer.validateKeys, if_neg ha]

/-- C6: a kwargs mapping with a key outside the allowed set of a variant is
fatal at construction for every variant, and the raised assertion names an
offending key (the `LayerBase` assertion carries the full key list, which
contains `k`; the `FeedForwardLayer` assertion carries the first offending
key itself). -/
theorem construct_unknown_kwarg_fails {σ : Type} (size in_size : Option Nat)
    (sink source : List σ) (kwargs : Kwargs) (k : String)
    (hk : k ∈ kwargs.map Prod.fst) :
    (LayerBase.construct (σ := σ) size in_size sink source kwargs =
        .error (.unexpectedKwargs (kwargs.map Prod.fst))
      ∧ InputLayer.construct (σ := σ) size in_size sink source kwargs =
        .error (.unexpectedKwargs (kwargs.map Prod.fst))
      ∧ NoOpLayer.construct (σ := σ) size in_size sink source kwargs =
        .error (.unexpectedKwargs (kwargs.map Prod.fst)))
    ∧ (k ∉ [("act_func" : String)] →
        ∃ k2, k2 ∈ kwargs.map Prod.fst ∧ k2 ∉ [("act_func" : String)] ∧
          FeedForwardLayer.construct (σ := σ) size in_size sink source
            kwargs = .error (.unexpectedKwarg k2)) := by
  constructor
  · cases kwargs with
    | nil => cases hk
    | cons p rest => exact ⟨rfl, rfl, rfl⟩
  · intro hnot
    obtain ⟨k2, h1, h2, hv⟩ :=
      ffValidateKeys_err (kwargs.map Prod.fst) ⟨k, hk, hnot⟩
    refine ⟨k2, h1, h2, ?_⟩
    simp only [FeedForwardLayer.construct, FeedForwardLayer.validate_kwargs,
      hv]

/-- C6 witness: the unrecognized key `colour` is fatal for all four
variants and is named by the raised error. -/
theorem construct_unknown_kwarg_fails_witness :
    (("colour" : String) ∈ ([(("colour"), ("red"))] : Kwargs).map Prod.fst)
    ∧ (("colour" : String) ∉ [("act_func" : String)])
    ∧ (LayerBase.construct (σ := Unit) (some 4) (some 4) [] []
          [(("colour"), ("red"))] = .error (.unexpectedKwargs [("colour")])
      ∧ InputLayer.construct (σ := Unit) (some 4) (some 4) [] []
          [(("colour"), ("red"))] = .error (.unexpectedKwargs [("colour")])
      ∧ NoOpLayer.construct (σ := Unit) (some 4) (some 4) [] []
          [(("colour"), ("red"))] = .error (.unexpectedKwargs [("colour")]))
    ∧ ∃ k2, k2 ∈ ([(("colour"), ("red"))] : Kwargs).map Prod.fst
        ∧ k2 ∉ [("act_func" : String)]
        ∧ FeedForwardLayer.construct (σ := Unit) (some 4) (some 4) [] []
            [(("colour"), ("red"))] = .error (.unexpectedKwarg k2) := by
  have hmem : ("colour" : String) ∈
      ([(("colour"), ("red"))] : Kwargs).map Prod.fst := by decide
  have hnot : ("colour" : String) ∉ [("act_func" : String)] := by decide
  exact ⟨hmem, hnot,
    (construct_unknown_kwarg_fails (σ := Unit) (some 4) (some 4) [] [] _ _
      hmem).1,
    (construct_unknown_kwarg_fails (σ := Unit) (some 4) (some 4) [] [] _ _
      hmem).2 hnot⟩

/-! ### C8: set_handler resolution -/

/-- A name outside the activation table misses every dict key. -/
theorem activation_functions_none (h : Handler) (name : String)
    (hn : name ∉ [("sigmoid" : String), ("tanh"), ("linear"), ("rel")]) :
    activation_functions h name = none := by
  simp only [List.mem_cons, List.not_mem_nil, or_false, not_or] at hn
  obtain ⟨h1, h2, h3, h4⟩ := hn
  simp [activation_functions, h1, h2, h3, h4]

/-- C8: `set_handler` resolves the activation pair from the table keyed by
`kwargs.get(act_func, tanh)`: with no `act_func` kwarg the tanh pair of
the bound handler is selected, a present key inside the table selects the
corresponding table entry, and a name outside the table raises `KeyError`
naming it. -/
theorem ff_set_handler_spec {σ : Type} (L : FFLayer σ) (h : Handler) :
    (List.lookup ("act_func") L.kwargs = none →
      FeedForwardLayer.set_handler L h =
        .ok { L with handler := some h,
                     act_func := some (.handlerFn h.tanh),
                     act_func_deriv := some (.handlerFn h.tanh_deriv) })
    ∧ (∀ name p, List.lookup ("act_func") L.kwargs = some name →
        activation_functions h name = some p →
        FeedForwardLayer.set_handler L h =
          .ok { L with handler := some h,
                       act_func := some p.1,
                       act_func_deriv := some p.2 })
    ∧ (∀ name, List.lookup ("act_func") L.kwargs = some name →
        name ∉ [("sigmoid" : String), ("tanh"), ("linear"), ("rel")] →
        FeedForwardLayer.set_handler L h = .error (.keyError name)) := by
  refine ⟨?_, ?_, ?_⟩
  · intro hnone
    simp only [FeedForwardLayer.set_handler, kwargsGet, hnone]
    simp [activation_functions]
  · intro name p hsome hp
    simp only [FeedForwardLayer.set_handler, kwargsGet, hsome, hp]
  · intro name hsome hn
    simp only [FeedForwardLayer.set_handler, kwargsGet, hsome,
      activation_functions_none h name hn]

/-- A concrete handler used by the concrete evaluations below. -/
def hConcrete : Handler :=
  { sigmoid := fun x => x + 1
    sigmoid_deriv := fun y dy => y * dy
    tanh := fun x => 2 * x
    tanh_deriv := fun y dy => y + dy
    rel := fun x => x
    rel_deriv := fun _ dy => dy }

/-- A `FeedForwardLayer(size=4, in_size=3, kwargs={})` before handler
binding. -/
def ffDefaultL0 : FFLayer Unit :=
  { in_size := some 3, kwargs := [], out_size := some 4, sink_layers := []
    source_layers := [], handler := none, act_func := none
    act_func_deriv := none }

/-- The same layer with the unrecognized activation name `softmax`. -/
def ffSoftmaxL0 : FFLayer Unit :=
  { ffDefaultL0 with kwargs := [(("act_func"), ("softmax"))] }

/-- C8 witness: the default resolves the tanh pair of the bound handler and
the unrecognized name `softmax` raises `KeyError`. -/
theorem ff_set_handler_spec_witness :
    (List.lookup ("act_func") ffDefaultL0.kwargs = none
      ∧ FeedForwardLayer.set_handler ffDefaultL0 hConcrete =
          .ok { ffDefaultL0 with
                  handler := some hConcrete
                  act_func := some (.handlerFn hConcrete.tanh)
                  act_func_deriv := some (.handlerFn hConcrete.tanh_deriv) })
    ∧ (List.lookup ("act_func") ffSoftmaxL0.kwargs = some ("softmax")
      ∧ (("softmax" : String) ∉
          [("sigmoid" : String), ("tanh"), ("linear"), ("rel")])
      ∧ FeedForwardLayer.set_handler ffSoftmaxL0 hConcrete =
          .error (.keyError ("softmax"))) := by
  refine ⟨⟨rfl, (ff_set_handler_spec ffDefaultL0 hConcrete).1 rfl⟩,
    ⟨rfl, by decide, ?_⟩⟩
  exact (ff_set_handler_spec ffSoftmaxL0 hConcrete).2.2 ("softmax") rfl
    (by decide)

/-! ### C9: the layer registry -/

/-- C9: every registered class name resolves to the class itself, an
unregistered name raises the lookup error naming it, and the abstract base
class is never returned. -/
theorem layer_registry_spec :
    (∀ c ∈ get_inheritors_LayerBase,
        get_layer_class_from_typename c.className = .ok c)
    ∧ (∀ n, n ∉ get_inheritors_LayerBase.map LayerClass.className →
        get_layer_class_from_typename n = .error (.layerTypeUnknown n))
    ∧ ∀ n, get_layer_class_from_typename n ≠ .ok .layerBase := by
  refine ⟨?_, ?_, ?_⟩
  · intro c hc
    fin_cases hc <;> rfl
  · intro n hn
    simp only [get_inheritors_LayerBase, List.map_cons, List.map_nil,
      LayerClass.className, List.mem_cons, List.not_mem_nil, or_false,
      not_or] at hn
    obtain ⟨h1, h2, h3⟩ := hn
    simp [get_layer_class_from_typename, findLayerClass,
      get_inheritors_LayerBase, LayerClass.className, h1, h2, h3]
  · intro n
    simp only [get_layer_class_from_typename, findLayerClass,
      get_inheritors_LayerBase, LayerClass.className]
    split_ifs <;> simp

/-- C9 witness: `NoOpLayer` resolves to itself, the unregistered name
`Softmax` raises the lookup error, and the query `LayerBase` does not return
the base class. -/
theorem layer_registry_spec_witness :
    (LayerClass.noOpLayer ∈ get_inheritors_LayerBase
      ∧ get_layer_class_from_typename (LayerClass.noOpLayer.className) =
          .ok .noOpLayer)
    ∧ (("Softmax" : String) ∉ get_inheritors_LayerBase.map LayerClass.className
      ∧ get_layer_class_from_typename ("Softmax") =
          .error (.layerTypeUnknown ("Softmax")))
    ∧ get_layer_class_from_typename ("LayerBase") ≠ .ok .layerBase := by
  have hm : LayerClass.noOpLayer ∈ get_inheritors_LayerBase := by decide
  have hn : ("Softmax" : String) ∉
      get_inheritors_LayerBase.map LayerClass.className := by decide
  exact ⟨⟨hm, layer_registry_spec.1 _ hm⟩,
    ⟨hn, layer_registry_spec.2.1 _ hn⟩,
    layer_registry_spec.2.2 ("LayerBase")⟩

/-! ### C10: InputLayer and NoOpLayer passes are no-ops -/

/-- A successful `InputLayer` construction is a successful base
construction. -/
theorem inputLayer_construct_ok {σ : Type} (size in_size : Option Nat)
    (sink source : List σ) (kwargs : Kwargs) (L : LayerState σ)
    (h : InputLayer.construct size in_size sink source kwargs = .ok L) :
    LayerBase.construct size in_size sink source kwargs = .ok L := by
  rw [InputLayer.construct] at h
  cases hbase : LayerBase.construct size in_size sink source kwargs with
  | error e => rw [hbase] at h; cases h
  | ok L0 =>
      rw [hbase] at h
      dsimp only at h
      cases ht : truthyOptNat in_size with
      | true => rw [ht] at h; cases h
      | false =>
          rw [ht] at h
          dsimp only at h
          injection h with h
          rw [h]

/-- A successful `NoOpLayer` construction is a successful base
construction. -/
theorem noOpLayer_construct_ok {σ : Type} (size in_size : Option Nat)
    (sink source : List σ) (kwargs : Kwargs) (L : LayerState σ)
    (h : NoOpLayer.construct size in_size sink source kwargs = .ok L) :
    LayerBase.construct size in_size sink source kwargs = .ok L := by
  rw [NoOpLayer.construct] at h
  cases hbase : LayerBase.construct size in_size sink source kwargs with
  | error e => rw [hbase] at h; cases h
  | ok L0 =>
      rw [hbase] at h
      dsimp only at h
      by_cases hs : size = in_size
      · rw [if_pos hs] at h
        injection h with h
        rw [h]
      · rw [if_neg hs] at h; cases h

/-- C10: a constructed `InputLayer` or `NoOpLayer` has no handler bound, and
the inherited `forward_pass`/`backward_pass` succeed anyway, returning the
layer state and every writable buffer unchanged. -/
theorem passthrough_no_handler {σ π ι ω δ δ2 γ : Type}
    (size in_size : Option Nat) (sink source : List σ) (kwargs : Kwargs)
    (L : LayerState σ)
    (hL : InputLayer.construct size in_size sink source kwargs = .ok L
        ∨ NoOpLayer.construct size in_size sink source kwargs = .ok L)
    (parameters : π) (input_buffer : ι) (output_buffer : ω)
    (in_delta_buffer : δ) (out_delta_buffer : δ2) (gradient_buffer : γ) :
    L.handler = none
    ∧ LayerBase.forward_pass L parameters input_buffer output_buffer =
        .ok (L, output_buffer)
    ∧ LayerBase.backward_pass L parameters input_buffer output_buffer
        in_delta_buffer out_delta_buffer gradient_buffer =
        .ok (L, in_delta_buffer, gradient_buffer) := by
  refine ⟨?_, rfl, rfl⟩
  have hbase : LayerBase.construct size in_size sink source kwargs = .ok L := by
    rcases hL with h | h
    · exact inputLayer_construct_ok size in_size sink source kwargs L h
    · exact noOpLayer_construct_ok size in_size sink source kwargs L h
  obtain ⟨-, hrec⟩ :=
    layerBase_construct_eq size in_size sink source kwargs L hbase
  rw [hrec]

/-- C10 witness: a concrete `InputLayer(size=2, in_size=None)` with no
handler ever bound; the passes succeed on concrete numeric stand-in buffers
and change nothing. -/
theorem passthrough_no_handler_witness :
    ∃ L, InputLayer.construct (σ := Unit) (some 2) none [] [] [] = .ok L
      ∧ L.handler = none
      ∧ LayerBase.forward_pass L (0 : Nat) (1 : Nat) (7 : Nat) =
          .ok (L, (7 : Nat))
      ∧ LayerBase.backward_pass L (0 : Nat) (1 : Nat) (7 : Nat) (8 : Nat)
          (5 : Nat) (9 : Nat) = .ok (L, (8 : Nat), (9 : Nat)) := by
  refine ⟨_, rfl, ?_⟩
  exact passthrough_no_handler (some 2) none [] [] [] _ (Or.inl rfl)
    (0 : Nat) (1 : Nat) (7 : Nat) (8 : Nat) (5 : Nat) (9 : Nat)

/-! ### C3: the forward recipe -/

/-- C3 (amended): for a bound handler-backed activation (the `sigmoid`,
`tanh` and `rel` table entries), `forward_pass` writes
`act_func(input · W + b)` elementwise through the flattened view. -/
theorem ff_forward_affine {σ : Type} {t b fin fout : Nat} (L : FFLayer σ)
    (hd : Handler) (g : Int → Int) (parameters : FFParams fin fout)
    (input_buffer : Buf3 t b fin) (output_buffer : Buf3 t b fout)
    (hh : L.handler = some hd) (hact : L.act_func = some (.handlerFn g)) :
    FeedForwardLayer.forward_pass L parameters input_buffer output_buffer =
      .ok (fun i j k =>
        g ((∑ l, input_buffer i j l * parameters.W l k) + parameters.b k)) := by
  simp only [FeedForwardLayer.forward_pass, hh, hact]
  congr 1
  funext i j k
  simp [reshape2to3, reshape3to2, hadd_mv, hdot, Equiv.symm_apply_apply]

/-- The layer `FeedForwardLayer(size=2, in_size=2, kwargs={act_func:
linear})` before handler binding. -/
def ffLinear2L0 : FFLayer Unit :=
  { in_size := some 2, kwargs := [(("act_func"), ("linear"))]
    out_size := some 2, sink_layers := [], source_layers := []
    handler := none, act_func := none, act_func_deriv := none }

/-- The same layer after `set_handler`: the `linear` table entry stores the
one-argument identity lambda and the integer `1`. -/
def ffLinear2L1 : FFLayer Unit :=
  { ffLinear2L0 with handler := some hConcrete
                     act_func := some .identityLambda
                     act_func_deriv := some .constOne }

/-- Concrete 2-by-2 parameters and `(1, 1, 2)` buffers. -/
def pLin2 : FFParams 2 2 := ⟨fun _ _ => 1, fun _ => 0⟩

/-- Concrete input buffer of shape `(1, 1, 2)` with entries `1, 2`. -/
def bufLin2a : Buf3 1 1 2 := fun _ _ k => ((k : Nat) : Int) + 1

/-- Concrete zero buffer of shape `(1, 1, 2)`. -/
def bufLin2b : Buf3 1 1 2 := fun _ _ _ => 0

/-- C3 counterexample: a `FeedForwardLayer` with a bound handler whose
`forward_pass` does not compute `act_func(input · W + b)` — with
`act_func=linear` the stored one-argument lambda is called with two
arguments and the pass raises `TypeError` instead. -/
theorem ff_forward_linear_cex :
    FeedForwardLayer.set_handler ffLinear2L0 hConcrete = .ok ffLinear2L1
    ∧ FeedForwardLayer.forward_pass ffLinear2L1 pLin2 bufLin2a bufLin2b =
      .error (.typeError
        ("lambda takes 1 positional argument but 2 were given")) := by
  exact ⟨rfl, rfl⟩

/-- The layer `FeedForwardLayer(size=4, in_size=3, kwargs={})` after binding
`hConcrete`, resolving the default tanh pair. -/
def ffTanhL1 : FFLayer Unit :=
  { ffDefaultL0 with handler := some hConcrete
                     act_func := some (.handlerFn hConcrete.tanh)
                     act_func_deriv := some (.handlerFn hConcrete.tanh_deriv) }

/-- Concrete 1-by-1 parameters. -/
def pW1 : FFParams 1 1 := ⟨fun _ _ => 2, fun _ => 3⟩

/-- Concrete zero 1-by-1 gradient buffer. -/
def gZero1 : FFParams 1 1 := ⟨fun _ _ => 0, fun _ => 0⟩

/-- Concrete `(1, 1, 1)` buffer with entry `5`. -/
def buf111a : Buf3 1 1 1 := fun _ _ _ => 5

/-- Concrete `(1, 1, 1)` buffer with entry `7`. -/
def buf111b : Buf3 1 1 1 := fun _ _ _ => 7

/-- Concrete `(1, 1, 1)` buffer with entry `11`. -/
def buf111c : Buf3 1 1 1 := fun _ _ _ => 11

/-- Concrete `(1, 1, 1)` buffer with entry `13`. -/
def buf111d : Buf3 1 1 1 := fun _ _ _ => 13

/-- Concrete `(1, 1, 1)` buffer with entry `17`. -/
def buf111e : Buf3 1 1 1 := fun _ _ _ => 17

/-- C3 witness: the tanh-bound layer evaluated on concrete buffers. -/
theorem ff_forward_affine_witness :
    ffTanhL1.handler = some hConcrete
    ∧ ffTanhL1.act_func = some (.handlerFn hConcrete.tanh)
    ∧ FeedForwardLayer.forward_pass ffTanhL1 pW1 buf111a buf111b =
        .ok (fun (i : Fin 1) (j : Fin 1) (k : Fin 1) =>
          hConcrete.tanh ((∑ l, buf111a i j l * pW1.W l k) + pW1.b k)) :=
  ⟨rfl, rfl,
    ff_forward_affine ffTanhL1 hConcrete hConcrete.tanh pW1 buf111a buf111b
      rfl rfl⟩

/-! ### C4: backward accumulation and overwrite -/

/-- The in-delta contribution `dZ @ W.T` of one backward call, read through
the 3-d buffer. -/
def ffDeltaTerm {t b fin fout : Nat} (d : Int → Int → Int)
    (W : MatZ fin fout) (output out_delta : Buf3 t b fout) : Buf3 t b fin :=
  fun i j k => ∑ l, d (output i j l) (out_delta i j l) * W k l

/-- The weight gradient `flat_input.T @ dZ` one backward call writes. -/
def ffGradW {t b fin fout : Nat} (d : Int → Int → Int)
    (input : Buf3 t b fin) (output out_delta : Buf3 t b fout) :
    MatZ fin fout :=
  fun a c => ∑ i, ∑ j, input i j a * d (output i j c) (out_delta i j c)

/-- The bias gradient (column sum of `dZ`) one backward call writes. -/
def ffGradB {t b fout : Nat} (d : Int → Int → Int)
    (output out_delta : Buf3 t b fout) : VecZ fout :=
  fun c => ∑ i, ∑ j, d (output i j c) (out_delta i j c)

/-- Closed form of one `backward_pass` call with a handler-backed
derivative: the in-delta buffer is accumulated into, the gradient buffers
are overwritten. -/
theorem ff_backward_closed_form {σ : Type} {t b fin fout : Nat}
    (L : FFLayer σ) (hd : Handler) (d : Int → Int → Int)
    (parameters : FFParams fin fout) (input_buffer : Buf3 t b fin)
    (output_buffer : Buf3 t b fout) (in_delta_buffer : Buf3 t b fin)
    (out_delta_buffer : Buf3 t b fout) (gradient_buffer : FFParams fin fout)
    (hh : L.handler = some hd)
    (hder : L.act_func_deriv = some (.handlerFn d)) :
    FeedForwardLayer.backward_pass L parameters input_buffer output_buffer
        in_delta_buffer out_delta_buffer gradient_buffer =
      .ok (fun i j k => in_delta_buffer i j k +
              ffDeltaTerm d parameters.W output_buffer out_delta_buffer i j k,
           ⟨ffGradW d input_buffer output_buffer out_delta_buffer,
            ffGradB d output_buffer out_delta_buffer⟩) := by
  simp only [FeedForwardLayer.backward_pass, hh, hder]
  have h1 : reshape2to3 (hdot_add
        (reshape3to2 (fun i j k =>
          d (output_buffer i j k) (out_delta_buffer i j k)))
        (htranspose parameters.W) (reshape3to2 in_delta_buffer)) =
      fun i j k => in_delta_buffer i j k +
        ffDeltaTerm d parameters.W output_buffer out_delta_buffer i j k := by
    funext i j k
    simp [reshape2to3, hdot_add, reshape3to2, htranspose, ffDeltaTerm,
      Equiv.symm_apply_apply]
  have h2 : hdot (htranspose (reshape3to2 input_buffer))
        (reshape3to2 (fun i j k =>
          d (output_buffer i j k) (out_delta_buffer i j k))) =
      ffGradW d input_buffer output_buffer out_delta_buffer := by
    funext a c
    simp only [hdot, htranspose]
    rw [sum_flat (fun p => reshape3to2 input_buffer p a *
      reshape3to2 (fun i j k =>
        d (output_buffer i j k) (out_delta_buffer i j k)) p c)]
    simp [reshape3to2, Equiv.symm_apply_apply, ffGradW]
  have h3 : hsum_axis0 (reshape3to2 (fun i j k =>
        d (output_buffer i j k) (out_delta_buffer i j k))) =
      ffGradB d output_buffer out_delta_buffer := by
    funext c
    simp only [hsum_axis0]
    rw [sum_flat (fun p => reshape3to2 (fun i j k =>
      d (output_buffer i j k) (out_delta_buffer i j k)) p c)]
    simp [reshape3to2, Equiv.symm_apply_apply, ffGradB]
  rw [h1, h2, h3]

/-- C4 (amended): with a handler-backed derivative, two sequential
`backward_pass` calls on the same in-delta buffer with different out-delta
buffers leave the in-delta buffer equal to its initial contents plus both
individual `dZ @ W.T` contributions, while the gradient buffers afterwards
hold exactly the weight gradient `flat_input.T @ dZ` and bias gradient
(column sum of `dZ`) of the most recent call, whatever the gradient buffers
held before. -/
theorem ff_backward_accumulate_overwrite {σ : Type} {t b fin fout : Nat}
    (L : FFLayer σ) (hd : Handler) (d : Int → Int → Int)
    (parameters : FFParams fin fout) (input_buffer : Buf3 t b fin)
    (output_buffer : Buf3 t b fout) (in_delta0 : Buf3 t b fin)
    (od1 od2 : Buf3 t b fout) (g0 g1 : FFParams fin fout)
    (hh : L.handler = some hd)
    (hder : L.act_func_deriv = some (.handlerFn d)) :
    FeedForwardLayer.backward_pass L parameters input_buffer output_buffer
        in_delta0 od1 g0 =
      .ok (fun i j k => in_delta0 i j k +
              ffDeltaTerm d parameters.W output_buffer od1 i j k,
           ⟨ffGradW d input_buffer output_buffer od1,
            ffGradB d output_buffer od1⟩)
    ∧ FeedForwardLayer.backward_pass L parameters input_buffer output_buffer
        (fun i j k => in_delta0 i j k +
          ffDeltaTerm d parameters.W output_buffer od1 i j k) od2 g1 =
      .ok (fun i j k => in_delta0 i j k +
              ffDeltaTerm d parameters.W output_buffer od1 i j k +
              ffDeltaTerm d parameters.W output_buffer od2 i j k,
           ⟨ffGradW d input_buffer output_buffer od2,
            ffGradB d output_buffer od2⟩) := by
  constructor
  · exact ff_backward_closed_form L hd d parameters input_buffer
      output_buffer in_delta0 od1 g0 hh hder
  · exact ff_backward_closed_form L hd d parameters input_buffer
      output_buffer (fun i j k => in_delta0 i j k +
        ffDeltaTerm d parameters.W output_buffer od1 i j k) od2 g1 hh hder

/-- C4 counterexample: a `FeedForwardLayer` with a bound handler on which
`backward_pass` produces no buffers at all — with `act_func=linear` the
stored derivative is the integer `1` and calling it raises `TypeError`, so
no call, let alone two sequential calls, yields the claimed buffers. -/
theorem ff_backward_linear_cex :
    FeedForwardLayer.set_handler ffLinear2L0 hConcrete = .ok ffLinear2L1
    ∧ ffLinear2L1.act_func_deriv = some .constOne
    ∧ FeedForwardLayer.backward_pass ffLinear2L1 pLin2 bufLin2a bufLin2b
        bufLin2a bufLin2b pLin2 =
      .error (.typeError ("int object is not callable")) := by
  exact ⟨rfl, rfl, rfl⟩

/-- C4 witness: the tanh-bound layer evaluated twice on concrete
buffers. -/
theorem ff_backward_accumulate_overwrite_witness :
    ffTanhL1.handler = some hConcrete
    ∧ ffTanhL1.act_func_deriv = some (.handlerFn hConcrete.tanh_deriv)
    ∧ (FeedForwardLayer.backward_pass ffTanhL1 pW1 buf111a buf111b buf111c
          buf111d gZero1 =
        .ok (fun i j k => buf111c i j k +
                ffDeltaTerm hConcrete.tanh_deriv pW1.W buf111b buf111d i j k,
             ⟨ffGradW hConcrete.tanh_deriv buf111a buf111b buf111d,
              ffGradB hConcrete.tanh_deriv buf111b buf111d⟩)
      ∧ FeedForwardLayer.backward_pass ffTanhL1 pW1 buf111a buf111b
          (fun i j k => buf111c i j k +
            ffDeltaTerm hConcrete.tanh_deriv pW1.W buf111b buf111d i j k)
          buf111e gZero1 =
        .ok (fun i j k => buf111c i j k +
                ffDeltaTerm hConcrete.tanh_deriv pW1.W buf111b buf111d i j k +
                ffDeltaTerm hConcrete.tanh_deriv pW1.W buf111b buf111e i j k,
             ⟨ffGradW hConcrete.tanh_deriv buf111a buf111b buf111e,
              ffGradB hConcrete.tanh_deriv buf111b buf111e⟩)) :=
  ⟨rfl, rfl,
    ff_backward_accumulate_overwrite ffTanhL1 hConcrete hConcrete.tanh_deriv
      pW1 buf111a buf111b buf111c buf111d buf111e gZero1 gZero1 rfl rfl⟩

/-! ### C1: the linear activation crashes both passes -/

/-- The layer `FeedForwardLayer(size=4, in_size=3, kwargs={act_func:
linear})` before handler binding. -/
def ffLinearL0 : FFLayer Unit :=
  { in_size := some 3, kwargs := [(("act_func"), ("linear"))]
    out_size := some 4, sink_layers := [], source_layers := []
    handler := none, act_func := none, act_func_deriv := none }

/-- The same layer after `set_handler`. -/
def ffLinearL1 : FFLayer Unit :=
  { ffLinearL0 with handler := some hConcrete
                    act_func := some .identityLambda
                    act_func_deriv := some .constOne }

/-- The identity-padded weight matrix of shape `(3, 4)`. -/
def wIdPadded : MatZ 3 4 := fun i j => if (i : Nat) = (j : Nat) then 1 else 0

/-- Identity-padded `W`, zero `b`. -/
def pC1 : FFParams 3 4 := ⟨wIdPadded, fun _ => 0⟩

/-- Concrete input of shape `(1, 1, 3)` with entries `1, 2, 3`. -/
def inputC1 : Buf3 1 1 3 := fun _ _ k => ((k : Nat) : Int) + 1

/-- Zero output buffer of shape `(1, 1, 4)`. -/
def outputC1 : Buf3 1 1 4 := fun _ _ _ => 0

/-- Zero in-delta buffer of shape `(1, 1, 3)`. -/
def inDeltaC1 : Buf3 1 1 3 := fun _ _ _ => 0

/-- All-ones out-delta buffer of shape `(1, 1, 4)`. -/
def outDeltaC1 : Buf3 1 1 4 := fun _ _ _ => 1

/-- Zero gradient buffers. -/
def gradC1 : FFParams 3 4 := ⟨fun _ _ => 0, fun _ => 0⟩

/-- C1: constructing `FeedForwardLayer` with `act_func=linear` and binding
a handler stores the one-argument identity lambda and the integer `1`; on
the input of shape `(1, 1, 3)` with identity-padded `W` and zero `b`,
`forward_pass` raises `TypeError` (the lambda is called with two arguments)
instead of writing `input · W`, and `backward_pass` raises `TypeError` (the
integer `1` is called) instead of producing `dZ = out_delta_buffer`. -/
theorem ff_linear_pass_crashes :
    FeedForwardLayer.construct (σ := Unit) (some 4) (some 3) [] []
        [(("act_func"), ("linear"))] = .ok ffLinearL0
    ∧ FeedForwardLayer.set_handler ffLinearL0 hConcrete = .ok ffLinearL1
    ∧ ffLinearL1.act_func = some .identityLambda
    ∧ ffLinearL1.act_func_deriv = some .constOne
    ∧ FeedForwardLayer.forward_pass ffLinearL1 pC1 inputC1 outputC1 =
      .error (.typeError
        ("lambda takes 1 positional argument but 2 were given"))
    ∧ FeedForwardLayer.backward_pass ffLinearL1 pC1 inputC1 outputC1
        inDeltaC1 outDeltaC1 gradC1 =
      .error (.typeError ("int object is not callable")) := by
  exact ⟨rfl, rfl, rfl, rfl, rfl, rfl⟩
